import Mathlib

/-!
Shallow embedding of the paperless-ngx tag exporter
(src/paperless-ngx-tag-exporter.py) together with proofs about the
properties its specification states.

Each definition is translated from the Python source; doc comments name
the source function and line range it embeds.  External library calls
(HTTP client, `dateutil.isoparse`, `datetime.strptime`, the spreadsheet
writer, locale-based currency rendering) are modelled by their documented
input/output behaviour: an HTTP response becomes an explicit page record,
a parsed ISO timestamp becomes an explicit date-time record, and the
filesystem becomes an explicit list of file entries.
-/

namespace TagExporter

/-! ## Filename sanitisation (sanitize_filename, lines 135-140) -/

/-- Characters the source replaces: the regex class in line 139. -/
def forbidden_filename_chars : List Char := ['<', '>', ':', '"', '/', '\\', '|', '?', '*']

/-- Embeds `sanitize_filename` (lines 135-140): `re.sub` replaces every
forbidden character by a dash, then the Python slice `[:255]` keeps the
first 255 code points. -/
def sanitize_filename (filename : String) : String :=
  String.mk ((filename.data.map (fun c => if c ∈ forbidden_filename_chars then '-' else c)).take 255)

/-! ## Currency parsing (parse_currency, lines 428-436) -/

/-- The character filter of line 432: keep digits, the dot and the minus. -/
def currency_chars_kept (value : String) : String :=
  String.mk (value.data.filter (fun c => c.isDigit || c == '.' || c == '-'))

/-- Decimal reading of a digit list, most significant first. -/
def digits_to_nat (l : List Char) : Nat :=
  l.foldl (fun a c => a * 10 + (c.toNat - 48)) 0

/-- Splitting a character list at every occurrence of a separator, the
semantics of Python `str.split(sep)` for a one-character separator. -/
def split_on_char (sep : Char) : List Char → List (List Char)
  | [] => [[]]
  | c :: cs =>
      if c = sep then [] :: split_on_char sep cs
      else
        match split_on_char sep cs with
        | [] => [[c]]
        | h :: t => (c :: h) :: t

/-- Unsigned part of the `float()` grammar over digits and dots: digits
with at most one dot and at least one digit overall.  The value is kept
exact as a rational; the values relevant to the spec (`5.0`, `0.0`) are
exactly representable floats. -/
def py_float_body (body : List Char) : Option Rat :=
  match split_on_char '.' body with
  | [ip] =>
      if 0 < ip.length ∧ ip.all Char.isDigit then
        some (digits_to_nat ip : Rat)
      else none
  | [ip, fp] =>
      if 0 < ip.length + fp.length ∧ ip.all Char.isDigit ∧ fp.all Char.isDigit then
        some ((digits_to_nat ip : Rat) + (digits_to_nat fp : Rat) / ((10 : Rat) ^ fp.length))
      else none
  | _ => none

/-- Model of Python `float()` restricted to the alphabet that survives the
filter of line 432 (digits, dot, minus): an optional leading minus, then
the unsigned grammar. -/
def py_float_of_string (s : String) : Option Rat :=
  match s.data with
  | '-' :: body => (py_float_body body).map (fun q => -q)
  | body => py_float_body body

/-- Embeds `parse_currency` (lines 428-436): strip everything but digits,
dot and minus, call `float`, and fall back to `0.0` on any failure. -/
def parse_currency (value : String) : Rat :=
  match py_float_of_string (currency_chars_kept value) with
  | some v => v
  | none => 0

/-! ## Date handling (parse_date lines 493-514, format_date lines 456-491) -/

/-- Zero-padding to two digits, as `strftime` does for `%d`, `%m`, `%H`, `%M`. -/
def two_digit (n : Nat) : String := if n < 10 then "0" ++ toString n else toString n

/-- Result of `dateutil.parser.isoparse` on a parsable ISO-8601-ish
timestamp: the external parser is modelled by the record of calendar and
time-of-day fields it yields (timezone offsets are kept attached by
`isoparse` and do not alter these local fields; sub-second precision does
not influence any branch of the source). -/
structure PDateTime where
  year : Nat
  month : Nat
  day : Nat
  hour : Nat
  minute : Nat
  second : Nat
deriving DecidableEq

/-- The timestamp's time component is exactly midnight. -/
def is_midnight (t : PDateTime) : Prop := t.hour = 0 ∧ t.minute = 0 ∧ t.second = 0

/-- Rendering `strftime("%d.%m.%Y")` of line 509. -/
def render_date_only (t : PDateTime) : String :=
  two_digit t.day ++ "." ++ two_digit t.month ++ "." ++ toString t.year

/-- Rendering `strftime("%d.%m.%Y %H:%M")` of line 511. -/
def render_date_time (t : PDateTime) : String :=
  render_date_only t ++ " " ++ two_digit t.hour ++ ":" ++ two_digit t.minute

/-- Embeds `parse_date` (lines 493-514).  `none` input models an empty or
unparsable date string (both return `None` in the source); otherwise the
source keeps the date only when `hour == 0 and minute == 0` and keeps
hour and minute otherwise. -/
def parse_date (dt : Option PDateTime) : Option String :=
  match dt with
  | none => none
  | some t =>
      if t.hour = 0 ∧ t.minute = 0 then some (render_date_only t)
      else some (render_date_time t)

/-- Reading of a non-empty all-digit character list. -/
def nat_of_digits? (l : List Char) : Option Nat :=
  if 0 < l.length ∧ l.all Char.isDigit then some (digits_to_nat l) else none

/-- Model of one numeric `strptime` field: between one and `maxLen`
digits whose value lies in `[lo, hi]`, exactly the regular expressions
Python uses for `%d`, `%m`, `%H`, `%M`. -/
def parse_bounded_nat (l : List Char) (lo hi maxLen : Nat) : Option Nat :=
  if 1 ≤ l.length ∧ l.length ≤ maxLen then
    match nat_of_digits? l with
    | some n => if lo ≤ n ∧ n ≤ hi then some n else none
    | none => none
  else none

/-- Model of the `%Y` field: exactly four digits. -/
def parse_year4 (l : List Char) : Option Nat :=
  if l.length = 4 then nat_of_digits? l else none

/-- Gregorian leap-year rule, used by `datetime` to validate the day. -/
def is_leap_year (y : Nat) : Bool := y % 4 == 0 && (y % 100 != 0 || y % 400 == 0)

/-- Length of a month, used by `datetime` to validate the day. -/
def days_in_month (y m : Nat) : Nat :=
  if m = 2 then (if is_leap_year y then 29 else 28)
  else if m = 4 ∨ m = 6 ∨ m = 9 ∨ m = 11 then 30
  else 31

/-- Model of `datetime.strptime(s, "%d.%m.%Y")`: day, month, four-digit
year separated by dots, with the range checks `datetime` enforces. -/
def strptime_dmy (l : List Char) : Option (Nat × Nat × Nat) :=
  match split_on_char '.' l with
  | [ds, ms, ys] =>
      match parse_bounded_nat ds 1 31 2, parse_bounded_nat ms 1 12 2, parse_year4 ys with
      | some d, some m, some y =>
          if 1 ≤ y ∧ d ≤ days_in_month y m then some (d, m, y) else none
      | _, _, _ => none
  | _ => none

/-- Model of the `"%H:%M"` tail of `datetime.strptime`. -/
def strptime_hm (l : List Char) : Option (Nat × Nat) :=
  match split_on_char ':' l with
  | [hs, ms] =>
      match parse_bounded_nat hs 0 23 2, parse_bounded_nat ms 0 59 2 with
      | some h, some m => some (h, m)
      | _, _ => none
  | _ => none

/-- The parse step of `format_date` (lines 474-479): split on a space and
use the date-plus-time pattern when the split has more than one part,
else the date-only pattern.  Only the date fields are used afterwards. -/
def canonical_parse (s : String) : Option (Nat × Nat × Nat) :=
  match split_on_char ' ' s.data with
  | [ds] => strptime_dmy ds
  | [ds, ts] =>
      match strptime_dmy ds, strptime_hm ts with
      | some dmy, some _ => some dmy
      | _, _ => none
  | _ => none

/-- The three distinguishable failure modes of `format_date`: the source
prints a distinct diagnostic for each and returns `None`; the spec names
the third one `UnsupportedFormatError`. -/
inductive FormatDateError
  | emptyInput
  | parseError
  | unsupportedFormat
deriving DecidableEq

/-- Embeds `format_date` (lines 456-491): reject empty input, parse the
canonical date string, then dispatch on the requested output pattern,
failing on any pattern other than `yyyy-mm` and `yyyy-mm-dd`. -/
def format_date (date_string : Option String) (output_format : String) : Except FormatDateError String :=
  match date_string with
  | none => Except.error FormatDateError.emptyInput
  | some s =>
      if s = "" then Except.error FormatDateError.emptyInput
      else
        match canonical_parse s with
        | none => Except.error FormatDateError.parseError
        | some (d, m, y) =>
            if output_format = "yyyy-mm" then
              Except.ok (toString y ++ "-" ++ two_digit m)
            else if output_format = "yyyy-mm-dd" then
              Except.ok (toString y ++ "-" ++ two_digit m ++ "-" ++ two_digit d)
            else Except.error FormatDateError.unsupportedFormat

/-! ## Paginated fetching (fetch_data, lines 90-114) -/

/-- One HTTP response of the collection endpoint: status code, the
`results` array and the `next` cursor (`none` models a missing key or a
JSON null). -/
structure ApiPage (α : Type) where
  status : Nat
  results : List α
  next : Option String
deriving DecidableEq

/-- The stopping test of line 110: `not response_data.get("next")` is
true exactly when `next` is absent, null, or an empty string. -/
def next_falsy {α : Type} (p : ApiPage α) : Bool :=
  match p.next with
  | none => true
  | some s => s == ""

/-- Embeds `fetch_data` (lines 90-114) on the sequence of pages the
remote API would serve for pages 1, 2, ...: error out on a non-200
status, accumulate `results`, stop after the first page with a falsy
`next`.  The result is `none` when the loop would run past the supplied
page sequence. -/
def fetch_data {α : Type} : List (ApiPage α) → Option (Except Nat (List α))
  | [] => none
  | p :: ps =>
      if p.status ≠ 200 then some (Except.error p.status)
      else if next_falsy p then some (Except.ok p.results)
      else (fetch_data ps).map (fun r => r.map (fun d => p.results ++ d))

/-- The pages the loop actually requests: every page up to and including
the first one with a falsy `next`. -/
def served_pages {α : Type} : List (ApiPage α) → List (ApiPage α)
  | [] => []
  | p :: ps => if next_falsy p then [p] else p :: served_pages ps

/-- Whether the supplied page sequence contains a stopping page at all. -/
def has_stop {α : Type} : List (ApiPage α) → Bool
  | [] => false
  | p :: ps => next_falsy p || has_stop ps

/-- The status of the first non-200 page the loop would reach (scanning
stops at the first falsy `next`, as the loop does). -/
def first_bad_status {α : Type} : List (ApiPage α) → Option Nat
  | [] => none
  | p :: ps =>
      if p.status ≠ 200 then some p.status
      else if next_falsy p then none
      else first_bad_status ps

/-! ## Spreadsheet filename (export_to_excel, lines 160-177) -/

/-- The base filename of line 167: `##export-<tagName>-<date>`. -/
def excel_base_filename (tag_name date : String) : String :=
  "##export-" ++ tag_name ++ "-" ++ date

/-- The collision loop of lines 173-177: try `<base>-1<ext>`,
`<base>-2<ext>`, ... until a free name is found.  The fuel argument
models the guaranteed termination of the Python loop over the finitely
many existing files. -/
def excel_name_loop (file_exists : String → Bool) (base ext : String) : Nat → Nat → String
  | counter, 0 => base ++ "-" ++ toString counter ++ ext
  | counter, fuel + 1 =>
      let name := base ++ "-" ++ toString counter ++ ext
      if file_exists name then excel_name_loop file_exists base ext (counter + 1) fuel
      else name

/-- Embeds the filename choice of `export_to_excel` (lines 166-177):
start from `##export-<tagName>-<date>.xlsx` and append `-1`, `-2`, ...
while the name is taken. -/
def excel_export_filename (file_exists : String → Bool) (tag_name date : String) (fuel : Nat) : String :=
  let base := excel_base_filename tag_name date
  if file_exists (base ++ ".xlsx") then excel_name_loop file_exists base ".xlsx" 1 fuel
  else base ++ ".xlsx"

/-! ## Documents, row collection and per-document files
    (process_documents_by_tag, lines 327-393) -/

/-- A document summary record as used for tag filtering. -/
structure Document where
  id : Int
  title : String
  tags : List Int
deriving DecidableEq

/-- The membership test of line 343: a document is processed when the run
is the all-documents variant or the target tag id occurs in its tag
list. -/
def included_in_export (is_all_docs : Bool) (tag_id : Int) (doc : Document) : Bool :=
  is_all_docs || doc.tags.contains tag_id

/-- The spreadsheet data rows `document_data` collects, identified by the
document id of each appended row: the loop body appends the row once at
line 384 and once more at line 388. -/
def export_rows (docs : List Document) (tag_id : Int) (is_all_docs : Bool) : List Int :=
  (docs.filter (included_in_export is_all_docs tag_id)).flatMap (fun d => [d.id, d.id])

/-- The PDF files `export_pdf` (lines 124-133) writes for a run in which
every download succeeds. -/
def export_pdf_files (docs : List Document) (tag_id : Int) (is_all_docs : Bool) : List String :=
  (docs.filter (included_in_export is_all_docs tag_id)).map (fun d => sanitize_filename d.title ++ ".pdf")

/-- The JSON sidecar files `export_json` (lines 142-147) writes. -/
def export_json_files (docs : List Document) (tag_id : Int) (is_all_docs : Bool) : List String :=
  (docs.filter (included_in_export is_all_docs tag_id)).map (fun d => sanitize_filename d.title ++ ".json")

/-! ## Daily-skip check and the all-documents run
    (has_file_from_today lines 306-322, process_documents_by_tag lines 331-335) -/

/-- Writing a file into a directory modelled as a list of
(name, modification date) entries: opening an existing name overwrites
it, otherwise the file is created. -/
def write_file (files : List (String × Nat)) (name : String) (mdate : Nat) : List (String × Nat) :=
  if files.any (fun p => p.1 = name) then
    files.map (fun p => if p.1 = name then (name, mdate) else p)
  else files ++ [(name, mdate)]

/-- Embeds `has_file_from_today` (lines 306-322): false when the
directory does not exist, else true when some contained file has
modification date equal to today. -/
def has_file_from_today (dir : Option (List (String × Nat))) (today : Nat) : Bool :=
  match dir with
  | none => false
  | some files => files.any (fun p => p.2 == today)

/-- The per-document writes of the export loop: a PDF and a JSON sidecar
per document, both carrying the current date as modification date. -/
def write_document_files (docs : List Document) (today : Nat) (files : List (String × Nat)) : List (String × Nat) :=
  docs.foldl
    (fun fs d =>
      write_file (write_file fs (sanitize_filename d.title ++ ".pdf") today)
        (sanitize_filename d.title ++ ".json") today)
    files

/-- Embeds `process_documents_by_tag` for the all-documents variant
(lines 327-393) as a state transformer on the target directory: return
unchanged (skipped) when `has_file_from_today` holds, else create the
directory if needed, write the per-document files and finally the
spreadsheet via the collision-avoiding name choice.  The boolean of the
result records whether the skip transition fired. -/
def run_all_docs_export (docs : List Document) (tag_name date_str : String)
    (dir : Option (List (String × Nat))) (today : Nat) : Option (List (String × Nat)) × Bool :=
  if has_file_from_today dir today then (dir, true)
  else
    let files0 := dir.getD []
    let files1 := write_document_files docs today files0
    let excel_name := excel_export_filename (fun n => files1.any (fun p => p.1 = n)) tag_name date_str (files1.length + 1)
    (some (write_file files1 excel_name today), false)

/-! ## Archive-then-clear and the tag loop
    (prepare_tag_directory_for_export lines 516-544, export_for_tags lines 577-615) -/

/-- A tag record as served by the API. -/
structure Tag where
  id : Int
  name : String
deriving DecidableEq

/-- The observable directory-level steps of a run, in order. -/
inductive ExportAction
  | archive (dir : String)
  | populate (dir : String)
  | skipToday (dir : String)
  | logTagNotFound (tagName : String)
deriving DecidableEq

/-- Path join of line 329 / 599. -/
def tag_directory (export_dir tag_name : String) : String :=
  export_dir ++ "/" ++ tag_name

/-- The directory-level behaviour of `process_documents_by_tag`
(lines 327-393): the skip transition fires only for the all-documents
variant and only when the directory already holds a file from today;
otherwise the directory is (created and) populated. -/
def process_documents_trace (tag_name export_dir : String) (is_all_docs : Bool)
    (has_today : String → Bool) : List ExportAction :=
  let dir := tag_directory export_dir tag_name
  if is_all_docs && has_today dir then [ExportAction.skipToday dir]
  else [ExportAction.populate dir]

/-- The directory-level behaviour of `export_for_tags` (lines 577-615):
first the ALLDocs job runs with no preparatory archive step
(lines 587-591), then each real tag whose directory exists is archived
via `prepare_tag_directory_for_export` (line 604) and populated, and a
tag without a directory is only logged. -/
def export_for_tags_trace (tags : List Tag) (export_dir : String)
    (dir_exists : String → Bool) (has_today : String → Bool) : List ExportAction :=
  process_documents_trace "ALLDocs" export_dir true has_today ++
    tags.flatMap (fun t =>
      let dir := tag_directory export_dir t.name
      if dir_exists dir then
        ExportAction.archive dir :: process_documents_trace t.name export_dir false has_today
      else [ExportAction.logTagNotFound t.name])

/-- The `file.endswith(".zip")` test of lines 533 and 541. -/
def ends_with_zip (f : String) : Bool :=
  ".zip".data.isSuffixOf f.data

/-- Embeds `prepare_tag_directory_for_export` (lines 516-544) on the
directory's file list: every file not ending in `.zip` is written into
the fresh timestamped zip (first component) and then deleted, so the
directory afterwards (second component) holds the new zip and the prior
zip archives only. -/
def prepare_tag_directory_for_export (files : List String) (zip_name : String) :
    List String × List String :=
  (files.filter (fun f => !(ends_with_zip f)),
   zip_name :: files.filter (fun f => ends_with_zip f))

/-! ## Custom fields (process_custom_fields, lines 395-426) -/

/-- A JSON-ish scalar as it reaches the custom-field loop. -/
inductive JVal
  | str (s : String)
  | int (n : Int)
  | num (q : Rat)
  | null
deriving DecidableEq

/-- Python string interpolation of a value, as in `f"Wert {field_value}"`. -/
def jval_show : JVal → String
  | JVal.str s => s
  | JVal.int n => toString n
  | JVal.num q => toString q
  | JVal.null => "None"

/-- The monetary branch converts the raw value with `parse_currency`;
`float()` over a non-string raises and the handler returns `0.0`. -/
def parse_currency_j : JVal → Rat
  | JVal.str s => parse_currency s
  | _ => 0

/-- One custom-field definition as stored in `custom_fields_map`
(lines 265-303): name, data type and, for select fields, the
index-to-label mapping of its options. -/
structure FieldInfo where
  name : String
  type : String
  choices : List (Int × String)
deriving DecidableEq

/-- One entry of a document's `custom_fields` array: `field` is `none`
when the key is absent or null, and `value` defaults to the empty string
upstream when absent. -/
structure CustomFieldEntry where
  field : Option Int
  value : JVal
deriving DecidableEq

/-- Lookup in the choices dict of a select field: only an integer value
can match the integer option indices; anything else falls through to the
synthetic label. -/
def choices_get (choices : List (Int × String)) (v : JVal) : Option String :=
  match v with
  | JVal.int n => (choices.find? (fun p => p.1 = n)).map (fun p => p.2)
  | _ => none

/-- Python dict insertion preserving insertion order: an existing key is
updated in place, a new key is appended. -/
def dinsert (m : List (String × JVal)) (k : String) (v : JVal) : List (String × JVal) :=
  if m.any (fun p => p.1 = k) then m.map (fun p => if p.1 = k then (k, v) else p)
  else m ++ [(k, v)]

/-- The label used for a field id: the definition's name when the id is
known, else the synthetic `Feld <id>` fallback of line 409. -/
def field_label (field_map : List (Int × FieldInfo)) (fid : Int) : String :=
  match (field_map.find? (fun p => p.1 = fid)).map (fun p => p.2) with
  | some info => info.name
  | none => "Feld " ++ toString fid

/-- One iteration of the loop in `process_custom_fields` (lines 400-424).
The state is the pair of the accumulated column dict and the list of
monetary column names; `fmt_cur` stands for the external locale-based
`format_currency`.  The guard `if not field_id: continue` (line 402)
drops an entry whose field id is absent, null, or the falsy integer 0;
afterwards the definition is looked up with default name `Feld <id>` and
default type `string`, and the monetary, select and pass-through branches
each record the field's column. -/
def process_one_custom_field (field_map : List (Int × FieldInfo)) (fmt_cur : JVal → String)
    (st : List (String × JVal) × List String) (cf : CustomFieldEntry) :
    List (String × JVal) × List String :=
  match cf.field with
  | none => st
  | some fid =>
      if fid = 0 then st
      else
        let info? := (field_map.find? (fun p => p.1 = fid)).map (fun p => p.2)
        let field_name := field_label field_map fid
        let field_type := match info? with
          | some info => info.type
          | none => "string"
        if field_type = "monetary" then
          (dinsert (dinsert st.1 field_name (JVal.num (parse_currency_j cf.value)))
             (field_name ++ "_formatted") (JVal.str (fmt_cur cf.value)),
           st.2 ++ [field_name])
        else if field_type = "select" then
          let choices := match info? with
            | some info => info.choices
            | none => []
          (dinsert st.1 field_name
             (JVal.str ((choices_get choices cf.value).getD ("Wert " ++ jval_show cf.value))),
           st.2)
        else (dinsert st.1 field_name cf.value, st.2)

/-- Embeds `process_custom_fields` (lines 395-426): fold the per-entry
step over the document's custom-field list, starting from the empty
column dict and the empty monetary-name list. -/
def process_custom_fields (field_map : List (Int × FieldInfo)) (fmt_cur : JVal → String)
    (doc_fields : List CustomFieldEntry) : List (String × JVal) × List String :=
  doc_fields.foldl (process_one_custom_field field_map fmt_cur) ([], [])

/-! ## Theorems -/

/-- C1: the loop body of `process_documents_by_tag` appends each
processed row to `document_data` both at line 384 and at line 388, so a
run over a single document carrying the target tag produces one PDF and
one JSON sidecar but two spreadsheet data rows, where the claim (and the
spec's own design note) require the row count to equal the number of
matching documents. -/
theorem export_rows_doubled_on_single_match :
    (export_rows [⟨1, "doc1", [1]⟩] 1 false).length = 2
    ∧ ([(⟨1, "doc1", [1]⟩ : Document)].filter (included_in_export false 1)).length = 1
    ∧ export_pdf_files [⟨1, "doc1", [1]⟩] 1 false = ["doc1.pdf"]
    ∧ export_json_files [⟨1, "doc1", [1]⟩] 1 false = ["doc1.json"]
    ∧ export_rows [⟨1, "doc1", [1]⟩, ⟨2, "doc2", [2]⟩] 1 false = [1, 1] := by
  decide

/-- Helper for C2: with a stopping page in range and only successful
statuses on the requested prefix, the fetch returns the concatenation of
the served pages' results. -/
theorem fetch_data_ok_of_served {α : Type} (ps : List (ApiPage α))
    (hstop : has_stop ps = true)
    (h200 : ∀ p ∈ served_pages ps, p.status = 200) :
    fetch_data ps = some (Except.ok ((served_pages ps).map ApiPage.results).flatten) := by
  induction ps with
  | nil => simp [has_stop] at hstop
  | cons p ps ih =>
      by_cases hs : next_falsy p
      · have hp : p.status = 200 := h200 p (by simp [served_pages, hs])
        simp [fetch_data, served_pages, hp, hs]
      · have hp : p.status = 200 := h200 p (by simp [served_pages, hs])
        have hstop2 : has_stop ps = true := by
          simpa [has_stop, hs] using hstop
        have h2002 : ∀ q ∈ served_pages ps, q.status = 200 := by
          intro q hq
          exact h200 q (by simp [served_pages, hs, hq])
        simp [fetch_data, served_pages, hp, hs, ih hstop2 h2002, Except.map]

/-- Helper for C2: the fetch aborts with the status of the first
non-success page it requests. -/
theorem fetch_data_error_of_first_bad {α : Type} (ps : List (ApiPage α)) (e : Nat)
    (hbad : first_bad_status ps = some e) :
    fetch_data ps = some (Except.error e) := by
  induction ps with
  | nil => simp [first_bad_status] at hbad
  | cons p ps ih =>
      by_cases hp : p.status ≠ 200
      · have he : p.status = e := by
          have : first_bad_status (p :: ps) = some p.status := by
            simp only [first_bad_status]
            rw [if_pos hp]
          rw [this] at hbad
          exact Option.some_injective _ hbad
        simp only [fetch_data]
        rw [if_pos hp, he]
      · by_cases hs : next_falsy p
        · simp [first_bad_status, hp, hs] at hbad
        · have hbad2 : first_bad_status ps = some e := by
            simpa [first_bad_status, hp, hs] using hbad
          simp [fetch_data, hp, hs, ih hbad2, Except.map]

/-- C2: `fetch_data` requests pages in order, accumulates each page's
`results` array, stops exactly after the first page with a falsy `next`
indicator (absent or null under the API contract), returning the
concatenation of the served pages' results when all of them succeed, and
aborts with an error carrying the status of the first non-success page
otherwise. -/
theorem fetch_data_paginates {α : Type} (ps : List (ApiPage α)) :
    (has_stop ps = true → (∀ p ∈ served_pages ps, p.status = 200) →
      fetch_data ps = some (Except.ok ((served_pages ps).map ApiPage.results).flatten))
    ∧ (∀ e, first_bad_status ps = some e → fetch_data ps = some (Except.error e)) :=
  ⟨fetch_data_ok_of_served ps, fetch_data_error_of_first_bad ps⟩

/-- Witness for C2 at two concrete page sequences: a two-page success
run concatenating in page order, and a run aborted by an HTTP 500. -/
theorem fetch_data_paginates_witness :
    fetch_data [⟨200, [1, 2], some "u"⟩, ⟨200, [3], none⟩] = some (Except.ok [1, 2, 3])
    ∧ fetch_data [⟨500, ([] : List Nat), some "u"⟩] = some (Except.error 500) := by
  constructor
  · have h := (fetch_data_paginates [⟨200, [1, 2], some "u"⟩, ⟨200, [3], none⟩]).1
      (by decide) (by decide)
    rw [h]
    rfl
  · exact (fetch_data_paginates [⟨500, ([] : List Nat), some "u"⟩]).2 500 (by decide)

/-- Helper for C5: the collision loop returns an untaken name as soon as
some candidate within the remaining fuel is free. -/
theorem excel_name_loop_free (file_exists : String → Bool) (base ext : String) :
    ∀ fuel counter,
      (∃ j, j < fuel ∧ file_exists (base ++ "-" ++ toString (counter + j) ++ ext) = false) →
      file_exists (excel_name_loop file_exists base ext counter fuel) = false := by
  intro fuel
  induction fuel with
  | zero =>
      intro counter h
      obtain ⟨j, hj, _⟩ := h
      omega
  | succ fuel ih =>
      intro counter h
      by_cases hc : file_exists (base ++ "-" ++ toString counter ++ ext) = true
      · obtain ⟨j, hj, hfree⟩ := h
        match j, hj, hfree with
        | 0, _, hfree => simp [hc] at hfree
        | j + 1, hj, hfree =>
            have : counter + (j + 1) = (counter + 1) + j := by omega
            rw [this] at hfree
            simpa [excel_name_loop, hc] using ih (counter + 1) ⟨j, by omega, hfree⟩
      · simp only [Bool.not_eq_true] at hc
        simp [excel_name_loop, hc]

/-- C5 counterexample: in a directory with no existing files, the
spreadsheet written for tag `A` on date `20250101` is named
`##export-A-20250101.xlsx` — the base name of line 167 carries the
`export-` infix — and not `##A-20250101.xlsx` as the claim states. -/
theorem excel_export_filename_counterexample :
    excel_export_filename (fun _ => false) "A" "20250101" 1 = "##export-A-20250101.xlsx"
    ∧ "##export-A-20250101.xlsx" ≠ "##A-20250101.xlsx" := by
  decide

/-- C5 amended: the report is named `##export-<tagName>-<date>.xlsx`;
when that name is taken the writer appends `-1`, `-2`, ... until a free
name is found, so it never reuses the name of an existing file. -/
theorem excel_export_filename_spec (file_exists : String → Bool) (tag_name date : String) (fuel : Nat) :
    (file_exists (excel_base_filename tag_name date ++ ".xlsx") = false →
      excel_export_filename file_exists tag_name date fuel
        = excel_base_filename tag_name date ++ ".xlsx")
    ∧ ((∃ j, j < fuel ∧
          file_exists (excel_base_filename tag_name date ++ "-" ++ toString (1 + j) ++ ".xlsx") = false) →
        file_exists (excel_export_filename file_exists tag_name date fuel) = false) := by
  constructor
  · intro hfree
    simp [excel_export_filename, hfree]
  · intro hex
    by_cases hbase : file_exists (excel_base_filename tag_name date ++ ".xlsx") = true
    · simp only [excel_export_filename, hbase, if_true]
      exact excel_name_loop_free file_exists (excel_base_filename tag_name date) ".xlsx" fuel 1 hex
    · simp only [Bool.not_eq_true] at hbase
      simp [excel_export_filename, hbase]

/-- Witness for C5 at concrete directory contents: an empty directory
yields the base name, and a directory already holding the base name
yields a name that is not taken. -/
theorem excel_export_filename_spec_witness :
    excel_export_filename (fun _ => false) "B" "20250101" 3 = "##export-B-20250101.xlsx"
    ∧ (fun n => n == "##export-B-20250101.xlsx") (excel_export_filename (fun n => n == "##export-B-20250101.xlsx") "B" "20250101" 2) = false := by
  constructor
  · exact (excel_export_filename_spec (fun _ => false) "B" "20250101" 3).1 rfl
  · exact (excel_export_filename_spec (fun n => n == "##export-B-20250101.xlsx") "B" "20250101" 2).2
      ⟨0, by omega, by decide⟩

/-- C3 counterexample: in a run whose daily-skip condition does not hold
(no file from today anywhere), the trace of `export_for_tags` performs
no archive step for the all-documents directory: the ALLDocs job of
lines 587-591 calls `process_documents_by_tag` directly, without the
`prepare_tag_directory_for_export` call that every real tag receives at
line 604. -/
theorem export_for_tags_alldocs_not_archived :
    export_for_tags_trace [] "E" (fun _ => false) (fun _ => false)
      = [ExportAction.populate "E/ALLDocs"]
    ∧ ExportAction.archive "E/ALLDocs"
        ∉ export_for_tags_trace [] "E" (fun _ => false) (fun _ => false) := by
  decide

/-- C3 amended: the archive-then-clear step (every non-archive file is
written into a fresh timestamped zip inside the directory and then
deleted, prior zip archives preserved) is applied to every real tag
whose directory exists, but the all-documents job performs no archive
step at all: when not skipped it repopulates its directory directly. -/
theorem archive_then_clear_real_tags_only (tags : List Tag) (export_dir : String)
    (dir_exists has_today : String → Bool) :
    (∀ t ∈ tags, dir_exists (tag_directory export_dir t.name) = true →
        ExportAction.archive (tag_directory export_dir t.name)
          ∈ export_for_tags_trace tags export_dir dir_exists has_today)
    ∧ (∀ d, ExportAction.archive d ∉ process_documents_trace "ALLDocs" export_dir true has_today)
    ∧ (∀ files zip_name f, zip_name ∉ files → f ∈ files →
        (ends_with_zip f = false →
          f ∈ (prepare_tag_directory_for_export files zip_name).1
          ∧ f ∉ (prepare_tag_directory_for_export files zip_name).2)
        ∧ (ends_with_zip f = true →
          f ∈ (prepare_tag_directory_for_export files zip_name).2)) := by
  refine ⟨?_, ?_, ?_⟩
  · intro t ht hdir
    simp only [export_for_tags_trace, List.mem_append]
    right
    rw [List.mem_flatMap]
    refine ⟨t, ht, ?_⟩
    simp only [hdir, if_true]
    exact List.mem_cons_self _ _
  · intro d
    simp only [process_documents_trace]
    split <;> simp
  · intro files zip_name f hz hf
    constructor
    · intro hnz
      constructor
      · exact List.mem_filter.mpr ⟨hf, by simp [hnz]⟩
      · intro hmem
        simp only [prepare_tag_directory_for_export, List.mem_cons] at hmem
        rcases hmem with heq | hmem
        · exact hz (heq ▸ hf)
        · have := (List.mem_filter.mp hmem).2
          rw [hnz] at this
          exact Bool.false_ne_true this
    · intro hyes
      simp only [prepare_tag_directory_for_export, List.mem_cons]
      right
      exact List.mem_filter.mpr ⟨hf, hyes⟩

/-- Witness for C3 amended at a concrete run: one real tag `T` with an
existing directory is archived, the ALLDocs segment holds no archive
action, and a concrete directory with a PDF and a prior zip keeps only
the zips while the PDF moves into the archive. -/
theorem archive_then_clear_real_tags_only_witness :
    ExportAction.archive "E/T"
      ∈ export_for_tags_trace [⟨1, "T"⟩] "E" (fun _ => true) (fun _ => false)
    ∧ ExportAction.archive "E/ALLDocs"
        ∉ process_documents_trace "ALLDocs" "E" true (fun _ => false)
    ∧ "a.pdf" ∈ (prepare_tag_directory_for_export ["a.pdf", "old.zip"] "##T_x.zip").1
    ∧ "a.pdf" ∉ (prepare_tag_directory_for_export ["a.pdf", "old.zip"] "##T_x.zip").2
    ∧ "old.zip" ∈ (prepare_tag_directory_for_export ["a.pdf", "old.zip"] "##T_x.zip").2 := by
  have h := archive_then_clear_real_tags_only [⟨1, "T"⟩] "E" (fun _ => true) (fun _ => false)
  have h3 := h.2.2 ["a.pdf", "old.zip"] "##T_x.zip" "a.pdf" (by decide) (by decide)
  have h4 := h.2.2 ["a.pdf", "old.zip"] "##T_x.zip" "old.zip" (by decide) (by decide)
  exact ⟨h.1 ⟨1, "T"⟩ (by decide) rfl, h.2.1 "E/ALLDocs",
    (h3.1 (by decide)).1, (h3.1 (by decide)).2, h4.2 (by decide)⟩

/-- Helper for C4: writing a file stamps an entry with the written
modification date, so the directory afterwards always holds a file with
that date. -/
theorem write_file_has_date (files : List (String × Nat)) (name : String) (mdate : Nat) :
    (write_file files name mdate).any (fun p => p.2 == mdate) = true := by
  unfold write_file
  by_cases h : files.any (fun p => p.1 = name) = true
  · rw [if_pos h]
    obtain ⟨p, hp, hpk⟩ := List.any_eq_true.mp h
    refine List.any_eq_true.mpr ⟨(name, mdate), ?_, by simp⟩
    refine List.mem_map.mpr ⟨p, hp, ?_⟩
    simp only [of_decide_eq_true hpk, if_true]
  · rw [if_neg h]
    simp [List.any_append]

/-- C4: on the all-documents variant, the skip transition fires exactly
when the target directory already holds a file whose modification date
equals the current date, and running the export twice on the same date
leaves the directory of the second run unchanged (the first run, when
not skipped, always writes files dated today — at least the spreadsheet
— so the second run takes the skip branch and creates nothing). -/
theorem run_all_docs_export_idempotent (docs : List Document) (tag_name date_str : String)
    (dir : Option (List (String × Nat))) (today : Nat) :
    (run_all_docs_export docs tag_name date_str
        (run_all_docs_export docs tag_name date_str dir today).1 today).1
      = (run_all_docs_export docs tag_name date_str dir today).1
    ∧ (run_all_docs_export docs tag_name date_str dir today).2
      = has_file_from_today dir today := by
  constructor
  · by_cases h : has_file_from_today dir today = true
    · simp [run_all_docs_export, h]
    · rw [show run_all_docs_export docs tag_name date_str dir today
          = (some (write_file (write_document_files docs today (dir.getD []))
              (excel_export_filename
                (fun n => (write_document_files docs today (dir.getD [])).any (fun p => p.1 = n))
                tag_name date_str ((write_document_files docs today (dir.getD [])).length + 1))
              today), false) from by
            simp [run_all_docs_export, h]]
      have htoday : has_file_from_today
          (some (write_file (write_document_files docs today (dir.getD []))
            (excel_export_filename
              (fun n => (write_document_files docs today (dir.getD [])).any (fun p => p.1 = n))
              tag_name date_str ((write_document_files docs today (dir.getD [])).length + 1))
            today)) today = true := by
        simp only [has_file_from_today]
        exact write_file_has_date _ _ _
      simp [run_all_docs_export, htoday]
  · by_cases h : has_file_from_today dir today = true
    · simp [run_all_docs_export, h]
    · simp only [Bool.not_eq_true] at h
      simp [run_all_docs_export, h]

/-- C6: on a canonical (parsable) date string, `format_date` renders the
`yyyy-mm` and `yyyy-mm-dd` patterns, and every other pattern fails with
the unsupported-format error. -/
theorem format_date_pattern_dispatch (s : String) (fmt : String) (d m y : Nat)
    (hparse : canonical_parse s = some (d, m, y)) :
    format_date (some s) "yyyy-mm" = Except.ok (toString y ++ "-" ++ two_digit m)
    ∧ format_date (some s) "yyyy-mm-dd"
        = Except.ok (toString y ++ "-" ++ two_digit m ++ "-" ++ two_digit d)
    ∧ (fmt ≠ "yyyy-mm" → fmt ≠ "yyyy-mm-dd" →
        format_date (some s) fmt = Except.error FormatDateError.unsupportedFormat) := by
  have hs : ¬ s = "" := by
    intro h
    rw [h, show canonical_parse "" = none from rfl] at hparse
    exact Option.noConfusion hparse
  refine ⟨?_, ?_, ?_⟩
  · simp [format_date, hs, hparse]
  · simp [format_date, hs, hparse]
  · intro h1 h2
    simp [format_date, hs, hparse, h1, h2]

/-- Witness for C6 at the canonical date `01.02.2024` and the
unsupported pattern `dd/mm/yyyy`. -/
theorem format_date_pattern_dispatch_witness :
    format_date (some "01.02.2024") "yyyy-mm" = Except.ok "2024-02"
    ∧ format_date (some "01.02.2024") "yyyy-mm-dd" = Except.ok "2024-02-01"
    ∧ format_date (some "01.02.2024") "dd/mm/yyyy"
        = Except.error FormatDateError.unsupportedFormat := by
  have h := format_date_pattern_dispatch "01.02.2024" "dd/mm/yyyy" 1 2 2024 rfl
  exact ⟨h.1, h.2.1, h.2.2 (by decide) (by decide)⟩

/-- Helper for C7: the time-carrying rendering is strictly longer than
the date-only rendering, so the two canonical forms never coincide. -/
theorem render_date_time_ne_date_only (t : PDateTime) :
    render_date_time t ≠ render_date_only t := by
  intro h
  have hl := congrArg String.length h
  rw [render_date_time] at hl
  rw [String.length_append, String.length_append, String.length_append,
    String.length_append] at hl
  rw [show (" " : String).length = 1 from rfl, show (":" : String).length = 1 from rfl] at hl
  omega

/-- C7 counterexample: the timestamp `2024-01-01T00:00:30` has a
non-midnight time component (30 seconds past midnight), yet `parse_date`
renders it as the time-free canonical form `01.01.2024`, because the
source checks only `hour == 0 and minute == 0`. -/
theorem parse_date_nonmidnight_time_omitted :
    parse_date (some ⟨2024, 1, 1, 0, 0, 30⟩) = some "01.01.2024"
    ∧ render_date_only ⟨2024, 1, 1, 0, 0, 30⟩ = "01.01.2024"
    ∧ ¬ is_midnight ⟨2024, 1, 1, 0, 0, 30⟩ := by
  refine ⟨by decide, by decide, ?_⟩
  intro h
  exact absurd h.2.2 (by decide)

/-- C7 amended: the canonical form produced by `parse_date` omits the
time of day exactly when the parsed hour and minute are both zero
(seconds are ignored, so a time like 00:00:30 loses its seconds), and a
timestamp with a non-zero hour or minute keeps an hour-and-minute time
component. -/
theorem parse_date_omits_time_iff (t : PDateTime) :
    (parse_date (some t) = some (render_date_only t) ↔ (t.hour = 0 ∧ t.minute = 0))
    ∧ (¬(t.hour = 0 ∧ t.minute = 0) → parse_date (some t) = some (render_date_time t)) := by
  by_cases h : t.hour = 0 ∧ t.minute = 0
  · exact ⟨by simp [parse_date, h], fun hh => absurd h hh⟩
  · refine ⟨?_, fun _ => by simp [parse_date, h]⟩
    constructor
    · intro heq
      rw [parse_date] at heq
      rw [if_neg h] at heq
      exact absurd (Option.some_injective _ heq) (render_date_time_ne_date_only t)
    · intro hh
      exact absurd hh h

/-- Witness for C7 at two concrete timestamps: a midnight one whose
canonical form is time-free, and an afternoon one that keeps its time. -/
theorem parse_date_omits_time_iff_witness :
    parse_date (some ⟨2024, 5, 6, 0, 0, 0⟩) = some (render_date_only ⟨2024, 5, 6, 0, 0, 0⟩)
    ∧ parse_date (some ⟨2024, 5, 6, 7, 8, 0⟩) = some (render_date_time ⟨2024, 5, 6, 7, 8, 0⟩) :=
  ⟨(parse_date_omits_time_iff ⟨2024, 5, 6, 0, 0, 0⟩).1.mpr (by decide),
   (parse_date_omits_time_iff ⟨2024, 5, 6, 7, 8, 0⟩).2 (by decide)⟩

/-- C8: `parse_currency` strips every character that is not a digit, a
dot or a minus and parses the remainder as a decimal number:
`EUR5.00` parses to `5.0`, `garbage` to `0.0`, any parse failure falls
back to `0.0` instead of raising, and any parse success is returned
unchanged. -/
theorem parse_currency_spec :
    parse_currency "EUR5.00" = 5
    ∧ parse_currency "garbage" = 0
    ∧ (∀ value : String, py_float_of_string (currency_chars_kept value) = none →
        parse_currency value = 0)
    ∧ (∀ value : String, ∀ q : Rat, py_float_of_string (currency_chars_kept value) = some q →
        parse_currency value = q) := by
  refine ⟨?_, ?_, ?_, ?_⟩
  · unfold parse_currency
    rw [show py_float_of_string (currency_chars_kept "EUR5.00")
        = some ((digits_to_nat ['5'] : Rat) + (digits_to_nat ['0', '0'] : Rat) / ((10 : Rat) ^ 2))
        from rfl]
    rw [show digits_to_nat ['5'] = 5 from by decide,
      show digits_to_nat ['0', '0'] = 0 from by decide]
    norm_num
  · unfold parse_currency
    rw [show py_float_of_string (currency_chars_kept "garbage") = none from by decide]
  · intro value h
    unfold parse_currency
    rw [h]
  · intro value q h
    unfold parse_currency
    rw [h]

/-- Witness for C8: a failing parse falls back to zero and a succeeding
parse is passed through. -/
theorem parse_currency_spec_witness :
    parse_currency "x" = 0 ∧ parse_currency "7" = ((digits_to_nat ['7'] : Nat) : Rat) :=
  ⟨parse_currency_spec.2.2.1 "x" (by decide),
   parse_currency_spec.2.2.2 "7" ((digits_to_nat ['7'] : Nat) : Rat) rfl⟩

/-- C9: `sanitize_filename` maps `a/b:c*d` to `a-b-c-d` (every forbidden
character replaced by a dash) and truncates every over-long title to
exactly 255 characters. -/
theorem sanitize_filename_spec :
    sanitize_filename "a/b:c*d" = "a-b-c-d"
    ∧ ∀ s : String, 255 < s.length → (sanitize_filename s).length = 255 := by
  refine ⟨by decide, ?_⟩
  intro s h
  have h2 : 255 < s.data.length := h
  show ((s.data.map (fun c => if c ∈ forbidden_filename_chars then '-' else c)).take 255).length = 255
  rw [List.length_take, List.length_map]
  exact min_eq_left (by omega)

set_option maxRecDepth 4096 in
/-- Witness for C9 at a title of 256 characters. -/
theorem sanitize_filename_spec_witness :
    (sanitize_filename (String.mk (List.replicate 256 'a'))).length = 255 :=
  sanitize_filename_spec.2 (String.mk (List.replicate 256 'a')) (by decide)

/-- Helper for C10: inserting a key into the column dict makes that key
present. -/
theorem dinsert_key_mem (m : List (String × JVal)) (k : String) (v : JVal) :
    (dinsert m k v).any (fun p => p.1 = k) = true := by
  unfold dinsert
  by_cases h : m.any (fun p => p.1 = k) = true
  · rw [if_pos h]
    obtain ⟨p, hp, hpk⟩ := List.any_eq_true.mp h
    refine List.any_eq_true.mpr ⟨(k, v), List.mem_map.mpr ⟨p, hp, ?_⟩, by simp⟩
    simp [of_decide_eq_true hpk]
  · rw [if_neg h]
    simp [List.any_append]

/-- Helper for C10: inserting a key never removes another key already
present in the column dict. -/
theorem dinsert_other_key (m : List (String × JVal)) (k : String) (v : JVal) (k₀ : String)
    (h : m.any (fun p => p.1 = k₀) = true) :
    (dinsert m k v).any (fun p => p.1 = k₀) = true := by
  unfold dinsert
  by_cases hk : m.any (fun p => p.1 = k) = true
  · rw [if_pos hk]
    obtain ⟨p, hp, hpk⟩ := List.any_eq_true.mp h
    by_cases hpk2 : p.1 = k
    · refine List.any_eq_true.mpr ⟨(k, v), List.mem_map.mpr ⟨p, hp, by simp [hpk2]⟩, ?_⟩
      simp only [← hpk2]
      exact hpk
    · exact List.any_eq_true.mpr ⟨p, List.mem_map.mpr ⟨p, hp, by simp [hpk2]⟩, hpk⟩
  · rw [if_neg hk]
    rw [List.any_append]
    simp [h]

/-- C10: the guard of line 402 makes `process_custom_fields` skip every
entry whose field id is absent, null, or the falsy integer 0 — such an
entry contributes no column even when a matching definition exists,
since the guard fires before the lookup — while every entry with a
non-zero field id records a column under its field's label. -/
theorem process_custom_fields_falsy_skip (field_map : List (Int × FieldInfo))
    (fmt_cur : JVal → String) (st : List (String × JVal) × List String)
    (cf : CustomFieldEntry) :
    (cf.field = none → process_one_custom_field field_map fmt_cur st cf = st)
    ∧ (cf.field = some 0 → process_one_custom_field field_map fmt_cur st cf = st)
    ∧ (∀ n : Int, cf.field = some n → n ≠ 0 →
        (process_one_custom_field field_map fmt_cur st cf).1.any
          (fun p => p.1 = field_label field_map n) = true)
    ∧ (∀ rest, cf.field = none ∨ cf.field = some 0 →
        process_custom_fields field_map fmt_cur (cf :: rest)
          = process_custom_fields field_map fmt_cur rest) := by
  have hskip : ∀ st2 : List (String × JVal) × List String,
      (cf.field = none ∨ cf.field = some 0) →
      process_one_custom_field field_map fmt_cur st2 cf = st2 := by
    intro st2 hor
    rcases hor with h | h
    · simp [process_one_custom_field, h]
    · simp [process_one_custom_field, h]
  refine ⟨fun h => hskip st (Or.inl h), fun h => hskip st (Or.inr h), ?_, ?_⟩
  · intro n h hn
    simp only [process_one_custom_field, h]
    rw [if_neg hn]
    split
    · exact dinsert_other_key _ _ _ _ (dinsert_key_mem _ _ _)
    · split
      · exact dinsert_key_mem _ _ _
      · exact dinsert_key_mem _ _ _
  · intro rest hor
    simp only [process_custom_fields, List.foldl_cons, hskip ([], []) hor]

/-- Witness for C10: an entry with field id 0 is dropped even though the
map defines field 0, an entry with no field id is dropped, a monetary
entry with field id 7 records its column, and the fold over a
one-element list with a falsy id equals the fold over the empty list. -/
theorem process_custom_fields_falsy_skip_witness :
    process_one_custom_field [(0, ⟨"Zero", "string", []⟩)] (fun _ => "") ([], [])
      ⟨some 0, JVal.str "x"⟩ = ([], [])
    ∧ process_one_custom_field [] (fun _ => "") ([], []) ⟨none, JVal.str "x"⟩ = ([], [])
    ∧ (process_one_custom_field [(7, ⟨"Betrag", "monetary", []⟩)] (fun _ => "") ([], [])
        ⟨some 7, JVal.str "EUR5.00"⟩).1.any
        (fun p => p.1 = field_label [(7, ⟨"Betrag", "monetary", []⟩)] 7) = true
    ∧ process_custom_fields [] (fun _ => "") [⟨some 0, JVal.null⟩]
        = process_custom_fields [] (fun _ => "") [] := by
  refine ⟨?_, ?_, ?_, ?_⟩
  · exact (process_custom_fields_falsy_skip _ _ _ _).2.1 rfl
  · exact (process_custom_fields_falsy_skip _ _ _ _).1 rfl
  · exact (process_custom_fields_falsy_skip _ _ _ _).2.2.1 7 rfl (by decide)
  · exact (process_custom_fields_falsy_skip [] (fun _ => "") ([], [])
      ⟨some 0, JVal.null⟩).2.2.2 [] (Or.inr rfl)

end TagExporter
